import Mathlib

/-!
Shallow embedding of the browser verification script
src/jules-scratch/verification/verify_system_page.py.

The script is a single linear procedure: launch a headless browser, open a
context and a page, visit the login page, wait for the Login button, fill
the two credential fields, click Login, assert the dashboard address, visit
the system sub-page, assert that the text Recent Activities is visible,
screenshot the panel at index 2, and close the browser. Every failing step
raises an exception that propagates out of run and out of the process.

The embedding models the target application and the filesystem by an
environment record describing which blocking checkpoints would succeed, and
computes the resulting run state: which steps completed, which addresses
were visited, what was typed into the form, whether the screenshot file was
written, whether the browser was closed, and which exception, if any, was
raised.
-/

namespace VerifySystemPage

/-- Address of the login page, passed to page.goto on line 9 of the script. -/
def loginUrl : String := "http://localhost:5173/login"

/-- Expected dashboard address asserted by to_have_url on line 16. -/
def dashboardUrl : String := "http://localhost:5173/dashboard"

/-- Address of the system sub-page, passed to page.goto on line 19. -/
def systemUrl : String := "http://localhost:5173/dashboard/system"

/-- Credential typed into the field with accessible label Username, line 11. -/
def usernameLiteral : String := "admin@example.com"

/-- Credential typed into the field with accessible label Password, line 12. -/
def passwordLiteral : String := "password"

/-- Output path passed to the element screenshot call on line 25. -/
def screenshotOutputPath : String := "jules-scratch/verification/verification.png"

/-- Structural and style selector of the candidate panels on line 25,
before the nth suffix. -/
def panelSelector : String := ".bg-white.rounded-2xl.shadow-sm.border.border-gray-100\\/50.p-8"

/-- Zero-based index selected by the nth=2 suffix of the locator, line 25. -/
def panelIndex : Nat := 2

/-- Millisecond bound passed as the timeout argument of wait_for_selector
on line 10 of the script. -/
def loginButtonWaitTimeoutMs : Nat := 60000

/-- Timeout configuration of a blocking checkpoint: either an explicit
millisecond bound passed at the call site, or the default bound of the
automation library when no timeout argument is given. -/
inductive TimeoutConfig where
  | explicitMs (ms : Nat)
  | implicitDefault
deriving DecidableEq

/-- The wait for the Login button passes timeout=60000 explicitly, line 10. -/
def loginButtonWaitTimeout : TimeoutConfig :=
  TimeoutConfig.explicitMs loginButtonWaitTimeoutMs

/-- The to_have_url assertion on line 16 passes no timeout argument. -/
def dashboardUrlAssertTimeout : TimeoutConfig := TimeoutConfig.implicitDefault

/-- The to_be_visible assertion on line 22 passes no timeout argument. -/
def recentActivitiesAssertTimeout : TimeoutConfig := TimeoutConfig.implicitDefault

/-- The individual actions issued by run, in source order. -/
inductive Step where
  | launchBrowser
  | newContext
  | newPage
  | gotoLogin
  | waitForLoginButton
  | fillUsername
  | fillPassword
  | clickLogin
  | assertDashboardUrl
  | gotoSystem
  | assertRecentActivities
  | screenshotPanel
  | closeBrowser
deriving DecidableEq

/-- The exceptions a step of run can raise. -/
inductive RunError where
  | loginButtonTimeout
  | dashboardUrlMismatch
  | visibilityTimeout
  | panelIndexOutOfRange
  | screenshotWriteFailure
deriving DecidableEq

/-- Observable behaviour of the target application and of the filesystem,
as seen by the blocking checkpoints of the script: at which millisecond the
Login button becomes attachable on the login page (none when it never
does), whether the page address equals the expected dashboard address
within the address assertion timeout, whether the text Recent Activities
becomes visible within the visibility assertion timeout, how many elements
on the system page match the panel selector, and whether writing the
screenshot file succeeds. -/
structure Env where
  loginButtonAttachMs : Option Nat
  dashboardUrlReached : Bool
  recentActivitiesVisible : Bool
  panelCount : Nat
  screenshotWriteOk : Bool

/-- State accumulated by one invocation of run: steps completed in order,
addresses visited, form field contents, number of clicks on Login, the
screenshot file written, the element index it captured, whether
browser.close was reached, and the exception raised, if any. -/
structure RunState where
  executed : List Step
  visitedUrls : List String
  usernameFieldValue : Option String
  passwordFieldValue : Option String
  loginClicks : Nat
  screenshotFile : Option String
  screenshotTakenAtIndex : Option Nat
  browserClosed : Bool
  raised : Option RunError

/-- State before the first step of run. -/
def initialState : RunState :=
  { executed := []
    visitedUrls := []
    usernameFieldValue := none
    passwordFieldValue := none
    loginClicks := 0
    screenshotFile := none
    screenshotTakenAtIndex := none
    browserClosed := false
    raised := none }

/-- Whether the wait_for_selector call on line 10 succeeds: the Login
button must become attachable within the explicit 60000 ms bound; the wait
raises a timeout when the button never appears, or appears only after the
bound has elapsed. -/
def loginWaitSucceeds (env : Env) : Bool :=
  match env.loginButtonAttachMs with
  | some t => decide (t ≤ loginButtonWaitTimeoutMs)
  | none => false

/-- Shallow embedding of run(playwright), lines 3 to 27 of the script: a
strictly linear sequence that stops at the first failing checkpoint and
reaches browser.close only after every earlier step succeeded. Launching,
opening the context and page, and the two goto calls are unconditional;
the fallible checkpoints are the bounded wait for the Login button, the
dashboard address assertion, the visibility assertion, the resolution of
the index 2 panel locator, and the screenshot file write. -/
def run (env : Env) : RunState :=
  let s := initialState
  let s := { s with executed := s.executed ++ [Step.launchBrowser] }
  let s := { s with executed := s.executed ++ [Step.newContext] }
  let s := { s with executed := s.executed ++ [Step.newPage] }
  let s := { s with executed := s.executed ++ [Step.gotoLogin]
                    visitedUrls := s.visitedUrls ++ [loginUrl] }
  if loginWaitSucceeds env = false then
    { s with raised := some RunError.loginButtonTimeout }
  else
  let s := { s with executed := s.executed ++ [Step.waitForLoginButton] }
  let s := { s with executed := s.executed ++ [Step.fillUsername]
                    usernameFieldValue := some usernameLiteral }
  let s := { s with executed := s.executed ++ [Step.fillPassword]
                    passwordFieldValue := some passwordLiteral }
  let s := { s with executed := s.executed ++ [Step.clickLogin]
                    loginClicks := s.loginClicks + 1 }
  if env.dashboardUrlReached = false then
    { s with raised := some RunError.dashboardUrlMismatch }
  else
  let s := { s with executed := s.executed ++ [Step.assertDashboardUrl] }
  let s := { s with executed := s.executed ++ [Step.gotoSystem]
                    visitedUrls := s.visitedUrls ++ [systemUrl] }
  if env.recentActivitiesVisible = false then
    { s with raised := some RunError.visibilityTimeout }
  else
  let s := { s with executed := s.executed ++ [Step.assertRecentActivities] }
  if env.panelCount ≤ panelIndex then
    { s with raised := some RunError.panelIndexOutOfRange }
  else
  if env.screenshotWriteOk = false then
    { s with raised := some RunError.screenshotWriteFailure }
  else
  let s := { s with executed := s.executed ++ [Step.screenshotPanel]
                    screenshotFile := some screenshotOutputPath
                    screenshotTakenAtIndex := some panelIndex }
  { s with executed := s.executed ++ [Step.closeBrowser]
           browserClosed := true }

/-- Outcome of one process invocation of the script. -/
structure ProcessResult where
  exitCode : Nat
  final : RunState
  playwrightStopped : Bool
  runInvocations : Nat

/-- Shallow embedding of the module toplevel, lines 29 and 30: the with
statement acquires the sync driver handle, run is invoked exactly once,
and the with statement releases the driver handle on both the normal and
the exceptional exit path; an exception escaping run is uncaught, so the
interpreter exits with status 1, and a run without exception exits 0. -/
def mainScript (env : Env) : ProcessResult :=
  let s := run env
  { exitCode := match s.raised with | none => 0 | some _ => 1
    final := s
    playwrightStopped := true
    runInvocations := 1 }

/-- The full fixed step sequence of a successful run, in source order. -/
def fullStepSequence : List Step :=
  [Step.launchBrowser, Step.newContext, Step.newPage, Step.gotoLogin,
   Step.waitForLoginButton, Step.fillUsername, Step.fillPassword,
   Step.clickLogin, Step.assertDashboardUrl, Step.gotoSystem,
   Step.assertRecentActivities, Step.screenshotPanel, Step.closeBrowser]

/-- When the Login button wait times out, run stops after the four opening
steps with a timeout exception and nothing further done. -/
theorem run_eq_of_loginFail (env : Env) (h : loginWaitSucceeds env = false) :
    run env =
      { executed := [Step.launchBrowser, Step.newContext, Step.newPage, Step.gotoLogin]
        visitedUrls := [loginUrl]
        usernameFieldValue := none
        passwordFieldValue := none
        loginClicks := 0
        screenshotFile := none
        screenshotTakenAtIndex := none
        browserClosed := false
        raised := some RunError.loginButtonTimeout } := by
  simp [run, initialState, h]

/-- When the Login button appears in time but the dashboard address
assertion fails, run stops after the click with an address mismatch. -/
theorem run_eq_of_urlFail (env : Env) (h1 : loginWaitSucceeds env = true)
    (h2 : env.dashboardUrlReached = false) :
    run env =
      { executed := [Step.launchBrowser, Step.newContext, Step.newPage, Step.gotoLogin,
                     Step.waitForLoginButton, Step.fillUsername, Step.fillPassword,
                     Step.clickLogin]
        visitedUrls := [loginUrl]
        usernameFieldValue := some usernameLiteral
        passwordFieldValue := some passwordLiteral
        loginClicks := 1
        screenshotFile := none
        screenshotTakenAtIndex := none
        browserClosed := false
        raised := some RunError.dashboardUrlMismatch } := by
  simp [run, initialState, h1, h2]

/-- When login succeeds but the Recent Activities text never becomes
visible, run stops after the goto of the system page. -/
theorem run_eq_of_visFail (env : Env) (h1 : loginWaitSucceeds env = true)
    (h2 : env.dashboardUrlReached = true) (h3 : env.recentActivitiesVisible = false) :
    run env =
      { executed := [Step.launchBrowser, Step.newContext, Step.newPage, Step.gotoLogin,
                     Step.waitForLoginButton, Step.fillUsername, Step.fillPassword,
                     Step.clickLogin, Step.assertDashboardUrl, Step.gotoSystem]
        visitedUrls := [loginUrl, systemUrl]
        usernameFieldValue := some usernameLiteral
        passwordFieldValue := some passwordLiteral
        loginClicks := 1
        screenshotFile := none
        screenshotTakenAtIndex := none
        browserClosed := false
        raised := some RunError.visibilityTimeout } := by
  simp [run, initialState, h1, h2, h3]

/-- When everything up to the visibility assertion succeeds but fewer than
three elements match the panel selector, resolving the index 2 locator
fails and no screenshot is taken. -/
theorem run_eq_of_panelFail (env : Env) (h1 : loginWaitSucceeds env = true)
    (h2 : env.dashboardUrlReached = true) (h3 : env.recentActivitiesVisible = true)
    (h4 : env.panelCount ≤ panelIndex) :
    run env =
      { executed := [Step.launchBrowser, Step.newContext, Step.newPage, Step.gotoLogin,
                     Step.waitForLoginButton, Step.fillUsername, Step.fillPassword,
                     Step.clickLogin, Step.assertDashboardUrl, Step.gotoSystem,
                     Step.assertRecentActivities]
        visitedUrls := [loginUrl, systemUrl]
        usernameFieldValue := some usernameLiteral
        passwordFieldValue := some passwordLiteral
        loginClicks := 1
        screenshotFile := none
        screenshotTakenAtIndex := none
        browserClosed := false
        raised := some RunError.panelIndexOutOfRange } := by
  simp [run, initialState, h1, h2, h3, h4]

/-- When the index 2 panel resolves but the screenshot file write fails,
run stops there and the browser stays open. -/
theorem run_eq_of_writeFail (env : Env) (h1 : loginWaitSucceeds env = true)
    (h2 : env.dashboardUrlReached = true) (h3 : env.recentActivitiesVisible = true)
    (h4 : panelIndex < env.panelCount) (h5 : env.screenshotWriteOk = false) :
    run env =
      { executed := [Step.launchBrowser, Step.newContext, Step.newPage, Step.gotoLogin,
                     Step.waitForLoginButton, Step.fillUsername, Step.fillPassword,
                     Step.clickLogin, Step.assertDashboardUrl, Step.gotoSystem,
                     Step.assertRecentActivities]
        visitedUrls := [loginUrl, systemUrl]
        usernameFieldValue := some usernameLiteral
        passwordFieldValue := some passwordLiteral
        loginClicks := 1
        screenshotFile := none
        screenshotTakenAtIndex := none
        browserClosed := false
        raised := some RunError.screenshotWriteFailure } := by
  simp [run, initialState, h1, h2, h3, Nat.not_le.mpr h4, h5]

/-- When every checkpoint succeeds, run performs the full fixed sequence,
writes the screenshot of the index 2 panel at the fixed path, closes the
browser, and raises nothing. -/
theorem run_eq_of_success (env : Env) (h1 : loginWaitSucceeds env = true)
    (h2 : env.dashboardUrlReached = true) (h3 : env.recentActivitiesVisible = true)
    (h4 : panelIndex < env.panelCount) (h5 : env.screenshotWriteOk = true) :
    run env =
      { executed := fullStepSequence
        visitedUrls := [loginUrl, systemUrl]
        usernameFieldValue := some usernameLiteral
        passwordFieldValue := some passwordLiteral
        loginClicks := 1
        screenshotFile := some screenshotOutputPath
        screenshotTakenAtIndex := some panelIndex
        browserClosed := true
        raised := none } := by
  simp [run, initialState, fullStepSequence, h1, h2, h3, Nat.not_le.mpr h4, h5]

/-- An uncaught exception from run makes the process exit nonzero. -/
theorem exitCode_ne_zero_of_raised (env : Env) (h : (run env).raised ≠ none) :
    (mainScript env).exitCode ≠ 0 := by
  simp only [mainScript]
  cases hr : (run env).raised with
  | none => exact absurd hr h
  | some e => simp

/-- A run that raises nothing makes the process exit zero. -/
theorem exitCode_eq_zero_of_none (env : Env) (h : (run env).raised = none) :
    (mainScript env).exitCode = 0 := by
  simp [mainScript, h]

/-- A target application in which every checkpoint succeeds: the Login
button is attachable immediately, the dashboard address is reached, the
Recent Activities text becomes visible, three elements match the panel
selector, and the screenshot write succeeds. -/
def envAllGood : Env :=
  { loginButtonAttachMs := some 0
    dashboardUrlReached := true
    recentActivitiesVisible := true
    panelCount := 3
    screenshotWriteOk := true }

/-- A target application whose Login control never appears. -/
def envNoLoginButton : Env :=
  { envAllGood with loginButtonAttachMs := none }

/-- A target application whose Login control becomes attachable only after
the 60000 ms bound has elapsed. -/
def envLateLoginButton : Env :=
  { envAllGood with loginButtonAttachMs := some 60001 }

/-- A target application that never reaches the dashboard address after
the click on Login. -/
def envUrlMismatch : Env :=
  { envAllGood with dashboardUrlReached := false }

/-- A target application whose Recent Activities text never becomes
visible on the system page. -/
def envNotVisible : Env :=
  { envAllGood with recentActivitiesVisible := false }

/-- A system page with only two elements matching the panel selector. -/
def envTwoPanels : Env :=
  { envAllGood with panelCount := 2 }

/-- C1: against a target application serving the expected login form,
dashboard redirect and system page, run executes exactly the fixed linear
sequence of steps, produces the screenshot file at the fixed output path,
closes the browser, and the process exits with status zero. -/
theorem c1_happy_path_full_sequence (env : Env)
    (h1 : loginWaitSucceeds env = true) (h2 : env.dashboardUrlReached = true)
    (h3 : env.recentActivitiesVisible = true) (h4 : panelIndex < env.panelCount)
    (h5 : env.screenshotWriteOk = true) :
    (run env).executed = fullStepSequence ∧
    (run env).screenshotFile = some screenshotOutputPath ∧
    (run env).browserClosed = true ∧
    (mainScript env).exitCode = 0 := by
  have hr := run_eq_of_success env h1 h2 h3 h4 h5
  exact ⟨by rw [hr], by rw [hr], by rw [hr],
    exitCode_eq_zero_of_none env (by rw [hr])⟩

/-- C1 witness: the all-good environment satisfies every hypothesis, and
there run performs the full sequence, writes the screenshot and exits 0. -/
theorem c1_witness :
    loginWaitSucceeds envAllGood = true ∧
    envAllGood.dashboardUrlReached = true ∧
    envAllGood.recentActivitiesVisible = true ∧
    panelIndex < envAllGood.panelCount ∧
    envAllGood.screenshotWriteOk = true ∧
    ((run envAllGood).executed = fullStepSequence ∧
     (run envAllGood).screenshotFile = some screenshotOutputPath ∧
     (run envAllGood).browserClosed = true ∧
     (mainScript envAllGood).exitCode = 0) :=
  ⟨by decide, rfl, rfl, by decide, rfl,
   c1_happy_path_full_sequence envAllGood (by decide) rfl rfl (by decide) rfl⟩

/-- C2: whenever any step of run raises, the exception propagates uncaught,
so the process exits nonzero, the browser is not closed, and the
browser.close step is never reached: it sits only on the path on which
every step succeeded. -/
theorem c2_failure_uncaught_browser_leak (env : Env)
    (h : (run env).raised ≠ none) :
    (mainScript env).exitCode ≠ 0 ∧
    (run env).browserClosed = false ∧
    Step.closeBrowser ∉ (run env).executed := by
  refine ⟨exitCode_ne_zero_of_raised env h, ?_⟩
  cases hb : loginWaitSucceeds env with
  | false =>
      have hr := run_eq_of_loginFail env hb
      exact ⟨by rw [hr], by rw [hr]; decide⟩
  | true =>
      cases hd : env.dashboardUrlReached with
      | false =>
          have hr := run_eq_of_urlFail env hb hd
          exact ⟨by rw [hr], by rw [hr]; decide⟩
      | true =>
          cases hv : env.recentActivitiesVisible with
          | false =>
              have hr := run_eq_of_visFail env hb hd hv
              exact ⟨by rw [hr], by rw [hr]; decide⟩
          | true =>
              by_cases hp : env.panelCount ≤ panelIndex
              · have hr := run_eq_of_panelFail env hb hd hv hp
                exact ⟨by rw [hr], by rw [hr]; decide⟩
              · cases hw : env.screenshotWriteOk with
                | false =>
                    have hr := run_eq_of_writeFail env hb hd hv (Nat.not_le.mp hp) hw
                    exact ⟨by rw [hr], by rw [hr]; decide⟩
                | true =>
                    have hr := run_eq_of_success env hb hd hv (Nat.not_le.mp hp) hw
                    rw [hr] at h
                    exact absurd rfl h

/-- C2 witness: in the address mismatch environment run raises, the process
exits nonzero and the browser is left open. -/
theorem c2_witness :
    (run envUrlMismatch).raised ≠ none ∧
    ((mainScript envUrlMismatch).exitCode ≠ 0 ∧
     (run envUrlMismatch).browserClosed = false ∧
     Step.closeBrowser ∉ (run envUrlMismatch).executed) :=
  ⟨by decide, c2_failure_uncaught_browser_leak envUrlMismatch (by decide)⟩

/-- C3: when the Login control never becomes attachable within the 60000
ms bound of the wait issued after the goto of the login address, the
process exits nonzero, the screenshot step is never reached, and no
screenshot file is produced. -/
theorem c3_login_timeout_no_screenshot (env : Env)
    (h : ∀ t, env.loginButtonAttachMs = some t → loginButtonWaitTimeoutMs < t) :
    (mainScript env).exitCode ≠ 0 ∧
    (run env).screenshotFile = none ∧
    Step.screenshotPanel ∉ (run env).executed := by
  have hb : loginWaitSucceeds env = false := by
    unfold loginWaitSucceeds
    cases hm : env.loginButtonAttachMs with
    | none => rfl
    | some t => exact decide_eq_false_iff_not.mpr (Nat.not_le.mpr (h t hm))
  have hr := run_eq_of_loginFail env hb
  exact ⟨exitCode_ne_zero_of_raised env (by rw [hr]; decide),
    by rw [hr], by rw [hr]; decide⟩

/-- C3 witness: when the Login control never appears at all, the process
exits nonzero and no screenshot file exists. -/
theorem c3_witness :
    (mainScript envNoLoginButton).exitCode ≠ 0 ∧
    (run envNoLoginButton).screenshotFile = none ∧
    Step.screenshotPanel ∉ (run envNoLoginButton).executed :=
  c3_login_timeout_no_screenshot envNoLoginButton
    (by intro t ht; simp [envNoLoginButton, envAllGood] at ht)

/-- C4: when the page address never equals the expected dashboard address
within the assertion timeout, the run fails before the navigation to the
system sub-page: the goto of the system address is never executed and the
system address is never visited. -/
theorem c4_url_mismatch_blocks_system_nav (env : Env)
    (h : env.dashboardUrlReached = false) :
    (mainScript env).exitCode ≠ 0 ∧
    Step.gotoSystem ∉ (run env).executed ∧
    systemUrl ∉ (run env).visitedUrls := by
  cases hb : loginWaitSucceeds env with
  | false =>
      have hr := run_eq_of_loginFail env hb
      exact ⟨exitCode_ne_zero_of_raised env (by rw [hr]; decide),
        by rw [hr]; decide, by rw [hr]; decide⟩
  | true =>
      have hr := run_eq_of_urlFail env hb h
      exact ⟨exitCode_ne_zero_of_raised env (by rw [hr]; decide),
        by rw [hr]; decide, by rw [hr]; decide⟩

/-- C4 witness: in the address mismatch environment the run fails and the
system page navigation never happens. -/
theorem c4_witness :
    envUrlMismatch.dashboardUrlReached = false ∧
    ((mainScript envUrlMismatch).exitCode ≠ 0 ∧
     Step.gotoSystem ∉ (run envUrlMismatch).executed ∧
     systemUrl ∉ (run envUrlMismatch).visitedUrls) :=
  ⟨rfl, c4_url_mismatch_blocks_system_nav envUrlMismatch rfl⟩

/-- C5: when the text Recent Activities never becomes visible on the
system page within the assertion timeout, run fails, the screenshot call
is never reached, and no screenshot file is produced. -/
theorem c5_invisible_no_screenshot (env : Env)
    (h : env.recentActivitiesVisible = false) :
    (mainScript env).exitCode ≠ 0 ∧
    (run env).screenshotFile = none ∧
    Step.screenshotPanel ∉ (run env).executed := by
  cases hb : loginWaitSucceeds env with
  | false =>
      have hr := run_eq_of_loginFail env hb
      exact ⟨exitCode_ne_zero_of_raised env (by rw [hr]; decide),
        by rw [hr], by rw [hr]; decide⟩
  | true =>
      cases hd : env.dashboardUrlReached with
      | false =>
          have hr := run_eq_of_urlFail env hb hd
          exact ⟨exitCode_ne_zero_of_raised env (by rw [hr]; decide),
            by rw [hr], by rw [hr]; decide⟩
      | true =>
          have hr := run_eq_of_visFail env hb hd h
          exact ⟨exitCode_ne_zero_of_raised env (by rw [hr]; decide),
            by rw [hr], by rw [hr]; decide⟩

/-- C5 witness: with the text never visible, the run fails and produces no
screenshot file. -/
theorem c5_witness :
    envNotVisible.recentActivitiesVisible = false ∧
    ((mainScript envNotVisible).exitCode ≠ 0 ∧
     (run envNotVisible).screenshotFile = none ∧
     Step.screenshotPanel ∉ (run envNotVisible).executed) :=
  ⟨rfl, c5_invisible_no_screenshot envNotVisible rfl⟩

/-- C6: with fewer than three elements matching the panel selector on the
system page, selecting the index 2 element fails with the out of range
error, the process exits nonzero, and no element at all is captured, so no
different element is silently captured in its place. -/
theorem c6_panel_index_out_of_range (env : Env)
    (h1 : loginWaitSucceeds env = true) (h2 : env.dashboardUrlReached = true)
    (h3 : env.recentActivitiesVisible = true) (h4 : env.panelCount < 3) :
    (run env).raised = some RunError.panelIndexOutOfRange ∧
    (run env).screenshotFile = none ∧
    (run env).screenshotTakenAtIndex = none ∧
    (mainScript env).exitCode ≠ 0 := by
  have h4le : env.panelCount ≤ panelIndex := by unfold panelIndex; omega
  have hr := run_eq_of_panelFail env h1 h2 h3 h4le
  exact ⟨by rw [hr], by rw [hr], by rw [hr],
    exitCode_ne_zero_of_raised env (by rw [hr]; decide)⟩

/-- C6 witness: with exactly two matching panels the index 2 selection
raises the out of range error and nothing is captured. -/
theorem c6_witness :
    loginWaitSucceeds envTwoPanels = true ∧
    envTwoPanels.panelCount < 3 ∧
    ((run envTwoPanels).raised = some RunError.panelIndexOutOfRange ∧
     (run envTwoPanels).screenshotFile = none ∧
     (run envTwoPanels).screenshotTakenAtIndex = none ∧
     (mainScript envTwoPanels).exitCode ≠ 0) :=
  ⟨by decide, by decide,
   c6_panel_index_out_of_range envTwoPanels (by decide) rfl rfl (by decide)⟩

/-- C7: the blocking wait for the Login control carries the explicit
timeout 60000 ms; whenever that wait fails, the control did not become
attachable within the bound, the run raises the timeout error, and the
process exits nonzero. -/
theorem c7_login_wait_explicit_bound (env : Env)
    (h : loginWaitSucceeds env = false) :
    loginButtonWaitTimeout = TimeoutConfig.explicitMs 60000 ∧
    (∀ t, env.loginButtonAttachMs = some t → loginButtonWaitTimeoutMs < t) ∧
    (run env).raised = some RunError.loginButtonTimeout ∧
    (mainScript env).exitCode ≠ 0 := by
  have hr := run_eq_of_loginFail env h
  refine ⟨rfl, ?_, by rw [hr],
    exitCode_ne_zero_of_raised env (by rw [hr]; decide)⟩
  intro t hm
  unfold loginWaitSucceeds at h
  rw [hm] at h
  exact Nat.not_le.mp (of_decide_eq_false h)

/-- C7 witness: a Login control attachable only at 60001 ms misses the
60000 ms bound, so the run raises the timeout error. -/
theorem c7_witness :
    loginWaitSucceeds envLateLoginButton = false ∧
    (loginButtonWaitTimeout = TimeoutConfig.explicitMs 60000 ∧
     (∀ t, envLateLoginButton.loginButtonAttachMs = some t →
        loginButtonWaitTimeoutMs < t) ∧
     (run envLateLoginButton).raised = some RunError.loginButtonTimeout ∧
     (mainScript envLateLoginButton).exitCode ≠ 0) :=
  ⟨by decide, c7_login_wait_explicit_bound envLateLoginButton (by decide)⟩

/-- C8: only the wait for the Login control carries an explicitly
configured timeout of 60000 ms; the dashboard address assertion and the
Recent Activities visibility assertion both use the implicit default
timeout of the automation library. -/
theorem c8_timeout_configuration :
    loginButtonWaitTimeout = TimeoutConfig.explicitMs 60000 ∧
    dashboardUrlAssertTimeout = TimeoutConfig.implicitDefault ∧
    recentActivitiesAssertTimeout = TimeoutConfig.implicitDefault :=
  ⟨rfl, rfl, rfl⟩

/-- C9: in every run the credential literals are exactly the fixed
username and password strings, any filled field holds exactly its literal,
the username field is filled strictly before the password field, and the
Login button is clicked at most once, exactly once whenever the click step
runs. -/
theorem c9_credentials_and_single_click (env : Env) :
    usernameLiteral = "admin@example.com" ∧
    passwordLiteral = "password" ∧
    ((run env).usernameFieldValue = none ∨
     (run env).usernameFieldValue = some usernameLiteral) ∧
    ((run env).passwordFieldValue = none ∨
     (run env).passwordFieldValue = some passwordLiteral) ∧
    (run env).loginClicks ≤ 1 ∧
    (Step.clickLogin ∈ (run env).executed → (run env).loginClicks = 1) ∧
    (Step.fillPassword ∈ (run env).executed →
      (run env).executed.indexOf Step.fillUsername <
        (run env).executed.indexOf Step.fillPassword) := by
  cases hb : loginWaitSucceeds env with
  | false =>
      have hr := run_eq_of_loginFail env hb
      rw [hr]; decide
  | true =>
      cases hd : env.dashboardUrlReached with
      | false =>
          have hr := run_eq_of_urlFail env hb hd
          rw [hr]; decide
      | true =>
          cases hv : env.recentActivitiesVisible with
          | false =>
              have hr := run_eq_of_visFail env hb hd hv
              rw [hr]; decide
          | true =>
              by_cases hp : env.panelCount ≤ panelIndex
              · have hr := run_eq_of_panelFail env hb hd hv hp
                rw [hr]; decide
              · cases hw : env.screenshotWriteOk with
                | false =>
                    have hr := run_eq_of_writeFail env hb hd hv (Nat.not_le.mp hp) hw
                    rw [hr]; decide
                | true =>
                    have hr := run_eq_of_success env hb hd hv (Nat.not_le.mp hp) hw
                    rw [hr]; decide

/-- C9 witness: the property instantiated at the all-good environment. -/
theorem c9_witness :
    usernameLiteral = "admin@example.com" ∧
    passwordLiteral = "password" ∧
    ((run envAllGood).usernameFieldValue = none ∨
     (run envAllGood).usernameFieldValue = some usernameLiteral) ∧
    ((run envAllGood).passwordFieldValue = none ∨
     (run envAllGood).passwordFieldValue = some passwordLiteral) ∧
    (run envAllGood).loginClicks ≤ 1 ∧
    (Step.clickLogin ∈ (run envAllGood).executed →
      (run envAllGood).loginClicks = 1) ∧
    (Step.fillPassword ∈ (run envAllGood).executed →
      (run envAllGood).executed.indexOf Step.fillUsername <
        (run envAllGood).executed.indexOf Step.fillPassword) :=
  c9_credentials_and_single_click envAllGood

/-- C10: for every environment, success or failure alike, the with
statement releases the sync driver handle on exit, and run is invoked
exactly once per process invocation. -/
theorem c10_driver_released_every_path (env : Env) :
    (mainScript env).playwrightStopped = true ∧
    (mainScript env).runInvocations = 1 ∧
    (mainScript env).final = run env :=
  ⟨rfl, rfl, rfl⟩

/-- C10 witness: the property at an environment whose run raises, showing
the driver handle is released on the exceptional path as well. -/
theorem c10_witness :
    (mainScript envNoLoginButton).playwrightStopped = true ∧
    (mainScript envNoLoginButton).runInvocations = 1 ∧
    (mainScript envNoLoginButton).final = run envNoLoginButton :=
  c10_driver_released_every_path envNoLoginButton

end VerifySystemPage
